import Mathlib

/-!
Verification of the OneRouter Gateway Security & Routing Core.

This file shallowly embeds the Python sources under `backend/app`
(`services/credential_manager.py`, `services/request_router.py`,
`routes/unified_api.py`, `routes/webhooks.py`, `services/webhook_verifier.py`,
`cache.py`, `services/payment_method_validator.py`) as executable Lean
definitions and proves or refutes the specified properties about them.

Modelling conventions:
* Python `bytes` are `List Nat` (each element a byte value).
* Python `dict` is an association list; assignment replaces in place or
  appends, deletion removes the first binding, lookup returns the first
  binding.
* The AES-256-GCM primitive from the `cryptography` package is modelled as an
  ideal AEAD: the ciphertext is the plaintext followed by a 16-byte
  authentication tag that is a deterministic function of key, nonce and
  plaintext; decryption checks the tag and strips it.  Confidentiality is not
  modelled (irrelevant to the claims); the interface behaviour (lengths,
  round-trip, tag-checked failure) is.
* `json.dumps(credentials, sort_keys=True)` / `json.loads` on string-keyed
  credential maps are modelled as a deterministic injective length-prefixed
  encoding of the key-sorted association list, with its exact decoder.
* Nondeterministic inputs of the code (`os.urandom`, generated ids, wall
  clock, the provider's remote verification verdict, provider responses) are
  explicit parameters of the embedded functions.
-/

namespace OneRouter

/-- Python byte strings: a list of byte values. -/
abbrev Bytes := List Nat

/-- `int.to_bytes(4, 'big')` — the 4-byte big-endian encoding used at
`credential_manager.py:77` (`version_bytes = self.current_key_version.to_bytes(4, 'big')`). -/
def enc4 (n : Nat) : Bytes :=
  [n / 2 ^ 24 % 256, n / 2 ^ 16 % 256, n / 2 ^ 8 % 256, n % 256]

/-- `int.from_bytes(bs, 'big')` — big-endian decoding used at
`credential_manager.py:89` (`version = int.from_bytes(combined[:4], 'big')`). -/
def dec4 (bs : Bytes) : Nat :=
  bs.foldl (fun a b => a * 256 + b) 0

/-- Lookup in a Python dict modelled as an association list. -/
def pyLookup {α β : Type} [DecidableEq α] (l : List (α × β)) (k : α) : Option β :=
  (l.find? (fun p => p.1 = k)).map Prod.snd

/-- Python dict assignment `d[k] = v`: replace the existing binding in place,
else append. -/
def pyInsert {α β : Type} [DecidableEq α] (l : List (α × β)) (k : α) (v : β) :
    List (α × β) :=
  match l with
  | [] => [(k, v)]
  | p :: r => if p.1 = k then (k, v) :: r else p :: pyInsert r k v

/-- Python dict deletion `del d[k]`: remove the first binding for `k`. -/
def pyErase {α β : Type} [DecidableEq α] (l : List (α × β)) (k : α) :
    List (α × β) :=
  match l with
  | [] => []
  | p :: r => if p.1 = k then r else p :: pyErase r k

/-- Keys of a Python dict, in insertion order (`d.keys()`). -/
def pyKeys {α β : Type} (l : List (α × β)) : List α := l.map Prod.fst

/-! ### Credential maps and their serialization

Credential dictionaries are Python `dict[str, str]`; strings are modelled as
their byte sequences.  A dict value is represented canonically by its
key-sorted association list. -/

/-- A credential map: string keys and string values, as byte sequences. -/
abbrev CredMap := List (Bytes × Bytes)

/-- Lexicographic `≤` on byte strings (Python string comparison used by
`sort_keys=True`). -/
def lexLe : Bytes → Bytes → Bool
  | [], _ => true
  | _ :: _, [] => false
  | a :: as, b :: bs =>
    if a < b then true
    else if b < a then false
    else lexLe as bs

/-- Insert into a key-sorted list of entries, by key. -/
def sortedInsertEntry (p : Bytes × Bytes) : CredMap → CredMap
  | [] => [p]
  | q :: r => if lexLe p.1 q.1 then p :: q :: r else q :: sortedInsertEntry p r

/-- Key-sort of an association list (the effect of `sort_keys=True`). -/
def sortEntries : CredMap → CredMap
  | [] => []
  | p :: r => sortedInsertEntry p (sortEntries r)

/-- One serialized entry: 4-byte big-endian key length, key bytes, 4-byte
big-endian value length, value bytes. -/
def encodePair (p : Bytes × Bytes) : Bytes :=
  enc4 p.1.length ++ p.1 ++ enc4 p.2.length ++ p.2

/-- `json.dumps(credentials, sort_keys=True).encode('utf-8')`
(`credential_manager.py:64`), modelled as the deterministic injective
length-prefixed encoding of the key-sorted entry list. -/
def jsonDumps (m : CredMap) : Bytes :=
  (sortEntries m).flatMap encodePair

/-- Worker for the decoder, with fuel bounding the number of entries. -/
def jsonLoadsGo : Nat → Bytes → Option CredMap
  | _, [] => some []
  | 0, _ :: _ => none
  | fuel + 1, bs@(_ :: _) =>
    if 4 ≤ bs.length then
      let klen := dec4 (bs.take 4)
      let r1 := bs.drop 4
      if klen ≤ r1.length then
        let key := r1.take klen
        let r2 := r1.drop klen
        if 4 ≤ r2.length then
          let vlen := dec4 (r2.take 4)
          let r3 := r2.drop 4
          if vlen ≤ r3.length then
            let val := r3.take vlen
            let r4 := r3.drop vlen
            match jsonLoadsGo fuel r4 with
            | some rest => some ((key, val) :: rest)
            | none => none
          else none
        else none
      else none
    else none

/-- `json.loads(plaintext.decode('utf-8'))` (`credential_manager.py:97`):
the exact inverse of `jsonDumps`, failing on bytes that are not a valid
encoding. -/
def jsonLoads (bs : Bytes) : Option CredMap :=
  jsonLoadsGo bs.length bs

/-- A canonical, serializable credential map: already key-sorted (the
canonical representative of a Python dict) with lengths below `2 ^ 32` so the
4-byte length prefixes are faithful. -/
def ValidCredMap (m : CredMap) : Prop :=
  sortEntries m = m ∧ ∀ p ∈ m, p.1.length < 2 ^ 32 ∧ p.2.length < 2 ^ 32

instance : DecidablePred ValidCredMap := fun m => by
  unfold ValidCredMap; infer_instance

/-! ### The AEAD primitive (ideal model of `AESGCM`) -/

/-- The 16-byte authentication tag of the ideal AEAD model: a deterministic
function of key, nonce and plaintext. -/
def gcmTag (key nonce data : Bytes) : Bytes :=
  (List.range 16).map
    (fun i => (i + 31 * key.sum + 17 * nonce.sum + 13 * data.sum + 7 * data.length) % 256)

/-- `AESGCM(key).encrypt(nonce, data, None)` — ideal AEAD: plaintext followed
by the 16-byte tag. -/
def gcmEncrypt (key nonce data : Bytes) : Bytes :=
  data ++ gcmTag key nonce data

/-- `AESGCM(key).decrypt(nonce, ct, None)` — ideal AEAD: check the trailing
16-byte tag; `none` models the `InvalidTag` exception. -/
def gcmDecrypt (key nonce ct : Bytes) : Option Bytes :=
  if 16 ≤ ct.length then
    let data := ct.take (ct.length - 16)
    if gcmTag key nonce data = ct.drop (ct.length - 16) then some data else none
  else none

/-! ### `CredentialManager` (credential_manager.py) -/

/-- The single Python exception class raised by `decrypt_credentials`
(`raise ValueError(f"Failed to decrypt credentials: {e}")`,
`credential_manager.py:103`).  All decryption failures share this class. -/
inductive PyErr : Type
  | valueError (msg : String)
deriving DecidableEq, Repr

/-- The Python exception class name of an error value. -/
def PyErr.className : PyErr → String
  | .valueError _ => "ValueError"

instance {α β : Type} [DecidableEq α] [DecidableEq β] : DecidableEq (Except α β) :=
  fun a b =>
    match a, b with
    | .ok x, .ok y => decidable_of_iff (x = y) (by simp)
    | .error x, .error y => decidable_of_iff (x = y) (by simp)
    | .ok _, .error _ => isFalse (by simp)
    | .error _, .ok _ => isFalse (by simp)

/-- In-memory state of `CredentialManager` (`credential_manager.py:28-56`):
the current key version and the `version -> key` dict. -/
structure CredentialManager where
  current_key_version : Nat
  encryption_keys : List (Nat × Bytes)
deriving DecidableEq, Repr

namespace CredentialManager

/-- `CredentialManager.__init__` (`credential_manager.py:28-56`): decodes the
configured key, requires 32 bytes, and installs it as version 1.  `none`
models the `ValueError` raised on a malformed key. -/
def init (key_bytes : Bytes) : Option CredentialManager :=
  if key_bytes.length = 32 then
    some { current_key_version := 1, encryption_keys := [(1, key_bytes)] }
  else none

/-- `encrypt_credentials` (`credential_manager.py:58-80`).  The fresh random
nonce (`os.urandom(12)`) is an explicit argument.  `none` models the `KeyError`
raised by `self.encryption_keys[self.current_key_version]` when the current
key is absent from the table. -/
def encrypt_credentials (cm : CredentialManager) (credentials : CredMap)
    (nonce : Bytes) : Option Bytes :=
  match pyLookup cm.encryption_keys cm.current_key_version with
  | none => none
  | some key =>
    -- data := json dump; ciphertext := AEAD output; blob := version ++ nonce ++ ciphertext
    some (enc4 cm.current_key_version ++ nonce ++
      gcmEncrypt key nonce (jsonDumps credentials))

/-- The error message of `decrypt_credentials` when no key matched or the
blob is too short (`raise ValueError("Could not decrypt data with available
keys")` rewrapped at `credential_manager.py:103`). -/
def noKeyMsg : String :=
  "Failed to decrypt credentials: Could not decrypt data with available keys"

/-- The error message of `decrypt_credentials` when the authentication tag
check fails: the `InvalidTag` exception from `cryptography` stringifies to the
empty string inside the rewrapping f-string. -/
def invalidTagMsg : String := "Failed to decrypt credentials: "

/-- The error message when the decrypted plaintext is not a valid
serialization (`json.loads` raises inside the same `try`). -/
def jsonErrMsg : String := "Failed to decrypt credentials: json decode error"

/-- `decrypt_credentials` (`credential_manager.py:82-103`): requires more
than 16 bytes, splits `version(4) || nonce(12) || ciphertext`, looks the
version up in the key table, AEAD-decrypts and deserializes.  Every failure
is rewrapped into the single generic `ValueError`. -/
def decrypt_credentials (cm : CredentialManager) (encrypted_data : Bytes) :
    Except PyErr CredMap :=
  -- version := first 4 bytes, nonce := bytes 4..16, ciphertext := rest
  if 16 < encrypted_data.length then
    match pyLookup cm.encryption_keys (dec4 (encrypted_data.take 4)) with
    | some key =>
      match gcmDecrypt key ((encrypted_data.drop 4).take 12) (encrypted_data.drop 16) with
      | some plaintext =>
        match jsonLoads plaintext with
        | some m => .ok m
        | none => .error (.valueError jsonErrMsg)
      | none => .error (.valueError invalidTagMsg)
    | none => .error (.valueError noKeyMsg)
  else .error (.valueError noKeyMsg)

/-- `rotate_encryption_key` (`credential_manager.py:105-119`).  The fresh
random key (`os.urandom(32)`) is an explicit argument; returns the updated
manager and the new version. -/
def rotate_encryption_key (cm : CredentialManager) (new_key : Bytes) :
    CredentialManager × Nat :=
  let v := cm.current_key_version + 1
  ({ current_key_version := v,
     encryption_keys := pyInsert cm.encryption_keys v new_key }, v)

/-- The removal loop of `cleanup_old_keys`: delete each listed version except
the current one, counting removals. -/
def cleanupLoop (current : Nat) : List Nat → List (Nat × Bytes) →
    List (Nat × Bytes) × Nat
  | [], keys => (keys, 0)
  | v :: rest, keys =>
    if v ≠ current then
      ((cleanupLoop current rest (pyErase keys v)).1,
       (cleanupLoop current rest (pyErase keys v)).2 + 1)
    else cleanupLoop current rest keys

/-- Insertion step for descending sort of version numbers. -/
def insertDesc (n : Nat) : List Nat → List Nat
  | [] => [n]
  | m :: r => if m ≤ n then n :: m :: r else m :: insertDesc n r

/-- `sorted(versions, reverse=True)` (`credential_manager.py:133`), as a
kernel-reducible insertion sort. -/
def sortDesc : List Nat → List Nat
  | [] => []
  | n :: r => insertDesc n (sortDesc r)

/-- `cleanup_old_keys` (`credential_manager.py:127-145`): keep only the
`keep_versions` most recent versions, never removing the current key. -/
def cleanup_old_keys (cm : CredentialManager) (keep_versions : Nat) :
    CredentialManager × Nat :=
  if cm.encryption_keys.length ≤ keep_versions then (cm, 0)
  else
    -- versions_to_remove := sorted(keys, reverse=True)[keep_versions:]
    ({ cm with encryption_keys :=
        (cleanupLoop cm.current_key_version
          ((sortDesc (pyKeys cm.encryption_keys)).drop keep_versions)
          cm.encryption_keys).1 },
     (cleanupLoop cm.current_key_version
        ((sortDesc (pyKeys cm.encryption_keys)).drop keep_versions)
        cm.encryption_keys).2)

end CredentialManager

/-! ### Database rows and query primitives -/

/-- Encode a Python identifier / config string into the byte-level string
representation used by credential maps (code points of its characters). -/
def strBytes (s : String) : Bytes := s.data.map Char.toNat

/-- A `service_credentials` row (`models/service_credential.py`), restricted
to the columns the embedded code reads.  `features_config` is a JSONB dict;
only its string-valued keys (`webhook_url`, `paypal_webhook_id`, …) are read
by the embedded routes, so it is modelled as a string-to-string dict (the
boolean `auto_provisioned` flag is stored as its rendering). -/
structure ServiceCredentialRec where
  user_id : String
  provider_name : String
  environment : String
  encrypted_credential : Bytes
  features_config : List (String × String)
  is_active : Bool
deriving DecidableEq, Repr

/-- A `users` row: the id and the JSONB `preferences` column
(`nullable`; shaped `environments -> service -> environment`). -/
structure UserRec where
  id : String
  preferences : Option (List (String × List (String × String)))
deriving DecidableEq, Repr

/-- A `webhook_events` row (`models/webhook_event.py`), restricted to the
columns the embedded code reads and writes (the JSONB payload column is not
read back by any embedded code path). -/
structure WebhookEventRec where
  user_id : String
  service_name : String
  event_type : String
  signature : String
  processed : Bool
deriving DecidableEq, Repr

/-- SQLAlchemy `Result.scalar_one_or_none()`: the single row, or `None` for
an empty result.  On two or more rows SQLAlchemy raises
`MultipleResultsFound`; such states violate the single-active-credential
uniqueness invariant and are excluded by hypothesis in every theorem below,
so the embedding maps them to `none`. -/
def scalarOneOrNone {α : Type} (l : List α) : Option α :=
  match l with
  | [x] => some x
  | _ => none

/-- The active-credential query used across the code base:
`ServiceCredential.user_id == u AND provider_name == s AND is_active == True`,
optionally restricted to one environment. -/
def activeCreds (db : List ServiceCredentialRec) (uid service : String)
    (env : Option String) : List ServiceCredentialRec :=
  db.filter (fun c =>
    c.user_id == uid && c.provider_name == service && c.is_active &&
      (match env with
       | some e => c.environment == e
       | none => true))

/-- `CredentialManager.get_credentials` (`credential_manager.py:389-429`):
fetch the single active row for (user, provider, environment) and decrypt it.
The enclosing `try`/`except Exception` (lines 408/427-429) converts every
failure — including the `ValueError` from `decrypt_credentials` — into
`None`. -/
def CredentialManager.get_credentials (cm : CredentialManager)
    (db : List ServiceCredentialRec) (user_id provider_name environment : String) :
    Option CredMap :=
  match scalarOneOrNone (activeCreds db user_id provider_name (some environment)) with
  | none => none
  | some credential =>
    match cm.decrypt_credentials credential.encrypted_credential with
    | .ok m => some m
    | .error _ => none

/-- `WebhookVerifier.get_user_credentials` (`webhook_verifier.py:209-242`):
fetch the single active row for (user, service) — with no environment filter —
and decrypt it.  The enclosing `try`/`except Exception` (lines 226/240-242)
converts every failure, including decryption failure, into `None`. -/
def WebhookVerifier.get_user_credentials (cm : CredentialManager)
    (db : List ServiceCredentialRec) (user_id service_name : String) :
    Option CredMap :=
  match scalarOneOrNone (activeCreds db user_id service_name none) with
  | none => none
  | some credential =>
    match cm.decrypt_credentials credential.encrypted_credential with
    | .ok m => some m
    | .error _ => none

/-! ### `get_env_credentials.py` (auto-provisioning source) -/

/-- `SERVICE_ENV_PATTERNS[service]["required"]`
(`get_env_credentials.py:12-43`). -/
def serviceEnvRequired : String → Option (List String)
  | "razorpay" => some ["RAZORPAY_KEY_ID", "RAZORPAY_KEY_SECRET"]
  | "paypal" => some ["PAYPAL_CLIENT_ID", "PAYPAL_CLIENT_SECRET"]
  | "twilio" => some ["TWILIO_ACCOUNT_SID", "TWILIO_AUTH_TOKEN"]
  | "aws_s3" => some ["AWS_ACCESS_KEY_ID", "AWS_SECRET_ACCESS_KEY", "AWS_S3_BUCKET"]
  | "stripe" => some ["STRIPE_SECRET_KEY", "STRIPE_PUBLISHABLE_KEY"]
  | "resend" => some ["RESEND_API_KEY"]
  | _ => none

/-- `get_credentials_from_env(service_name)` (`get_env_credentials.py`):
`None` for an unsupported service or when any required process environment
variable is absent; otherwise the dict of the required variables.  (Optional
variables only enrich the dict and are never read by the embedded callers, so
they are not modelled.) -/
def get_credentials_from_env (processEnv : List (Bytes × Bytes))
    (service_name : String) : Option CredMap :=
  match serviceEnvRequired service_name with
  | none => none
  | some required =>
    let entries := required.map (fun k => (strBytes k, pyLookup processEnv (strBytes k)))
    if entries.all (fun p => p.2.isSome) then
      some (entries.map (fun p => (p.1, p.2.getD [])))
    else none

/-! ### `RequestRouter` (request_router.py) -/

/-- `RequestRouter._get_user_preferred_environment`
(`request_router.py:19-35`): the user's stored preference for the service,
defaulting to `"test"`. -/
def _get_user_preferred_environment (users : List UserRec)
    (user_id service : String) : String :=
  let preferences := (users.find? (fun u => u.id == user_id)).bind (fun u => u.preferences)
  match preferences with
  | some prefs =>
    match pyLookup prefs "environments" with
    | some envs =>
      match pyLookup envs service with
      | some e => e
      | none => "test"
    | none => "test"
  | none => "test"

/-- The opposite environment in the fallback chain built at
`request_router.py:55-58` (`["test", "live"]` for `"test"`, else
`["live", "test"]`). -/
def otherEnvironment (e : String) : String :=
  if e == "test" then "live" else "test"

/-- `RequestRouter._get_credentials_with_fallback`
(`request_router.py:37-74`): try the preferred environment, then the opposite
one, returning the first active credential found. -/
def _get_credentials_with_fallback (db : List ServiceCredentialRec)
    (user_id service preferred_environment : String) :
    Option ServiceCredentialRec :=
  let environments_to_try :=
    if preferred_environment == "test" then ["test", "live"] else ["live", "test"]
  environments_to_try.findSome?
    (fun environment => scalarOneOrNone (activeCreds db user_id service (some environment)))

/-- A provider adapter instance, holding the decrypted credentials it was
constructed with (`RazorpayAdapter(credentials)` / `PayPalAdapter(credentials)`,
`request_router.py:151-156`). -/
structure Adapter where
  provider : String
  credentials : CredMap
deriving DecidableEq, Repr

/-- The exceptions `RequestRouter.get_adapter` can raise:
`ProviderNotConfiguredException` (modelled from the spec — `exceptions.py` is
absent from the sources — as a structured non-HTTP application exception
carrying the provider), the `ValueError` propagating uncaught from
`decrypt_credentials`, and the generic `Exception` for an unsupported
service. -/
inductive GetAdapterError : Type
  | providerNotConfigured (provider : String)
  | decryptFailed (e : PyErr)
  | unsupportedService (msg : String)
deriving DecidableEq, Repr

/-- `RequestRouter.get_adapter` (`request_router.py:76-158`): resolve the
environment (explicit `target_environment` if given, else the user
preference), fetch credentials with cross-environment fallback, attempt
auto-provisioning from process environment variables, decrypt, and construct
the adapter.  `provisionNonce` is the fresh nonce consumed if
auto-provisioning encrypts new credentials.  Returns the adapter together
with the (possibly extended) credential table. -/
def get_adapter (cm : CredentialManager) (db : List ServiceCredentialRec)
    (users : List UserRec) (processEnv : List (Bytes × Bytes))
    (user_id service : String) (target_environment : Option String)
    (provisionNonce : Bytes) :
    Except GetAdapterError (Adapter × List ServiceCredentialRec) :=
  let environment :=
    match target_environment with
    | none => _get_user_preferred_environment users user_id service
    | some e => e
  let credential0 := _get_credentials_with_fallback db user_id service environment
  let (credential, db') :=
    match credential0 with
    | some c => (some c, db)
    | none =>
      match get_credentials_from_env processEnv service with
      | none => (none, db)
      | some env_creds =>
        -- store_service_credentials (credential_manager.py:155-184); an
        -- encryption failure is swallowed by `except Exception: pass`
        -- (request_router.py:126-128) and leaves credential unset
        match cm.encrypt_credentials env_creds provisionNonce with
        | none => (none, db)
        | some blob =>
          let newRec : ServiceCredentialRec :=
            { user_id := user_id, provider_name := service,
              environment := environment, encrypted_credential := blob,
              features_config := [("auto_provisioned", "True")],
              is_active := true }
          (some newRec, db ++ [newRec])
  match credential with
  | none => .error (.providerNotConfigured service)
  | some c =>
    match cm.decrypt_credentials c.encrypted_credential with
    | .error e => .error (.decryptFailed e)
    | .ok credentials =>
      if service == "razorpay" then
        .ok ({ provider := "razorpay", credentials := credentials }, db')
      else if service == "paypal" then
        .ok ({ provider := "paypal", credentials := credentials }, db')
      else .error (.unsupportedService ("Unsupported service: " ++ service))

/-! ### `ProviderCapabilities` (payment_method_validator.py) -/

/-- The `PaymentMethod` enum values (`payment_method_validator.py:12-23`). -/
def paymentMethodValues : List String :=
  ["upi", "card", "netbanking", "wallet", "paypal", "venmo",
   "apple_pay", "google_pay", "pay_later", "emi"]

/-- `RAZORPAY_METHODS` (`payment_method_validator.py:29-36`). -/
def razorpayMethods : List String := ["upi", "card", "netbanking", "wallet", "emi"]

/-- `PAYPAL_METHODS` (`payment_method_validator.py:38-46`). -/
def paypalMethods : List String :=
  ["card", "paypal", "venmo", "apple_pay", "google_pay", "pay_later"]

/-- `RAZORPAY_UPI_APPS` (`payment_method_validator.py:48-52`). -/
def razorpayUpiApps : List String :=
  ["gpay", "phonepe", "paytm", "bhim", "amazonpay", "ola", "mobikwik",
   "jiomoney", "freecharge"]

/-- `SUPPORTED_CARD_NETWORKS` (`payment_method_validator.py:54-57`). -/
def supportedCardNetworks : List String :=
  ["visa", "mastercard", "amex", "discover", "rupay"]

/-- `ProviderCapabilities.get_supported_methods`
(`payment_method_validator.py:66-74`). -/
def get_supported_methods (provider : String) : List String :=
  let provider := provider.toLower
  if provider == "razorpay" then razorpayMethods
  else if provider == "paypal" then paypalMethods
  else []

/-- `ProviderCapabilities.is_method_supported`
(`payment_method_validator.py:77-84`): membership after the
`PaymentMethod(method.lower())` conversion, whose `ValueError` yields
`False`. -/
def is_method_supported (provider method : String) : Bool :=
  let m := method.toLower
  if paymentMethodValues.contains m then (get_supported_methods provider).contains m
  else false

/-- `ProviderCapabilities.get_preferred_provider`
(`payment_method_validator.py:97-129`). -/
def get_preferred_provider (method currency : String) : Option String :=
  let method := method.toLower
  if currency == "INR" && ["upi", "netbanking", "wallet"].contains method then
    some "razorpay"
  else if ["USD", "EUR", "GBP"].contains currency &&
      ["card", "paypal", "apple_pay", "google_pay", "pay_later"].contains method then
    some "paypal"
  else if method == "upi" then some "razorpay"
  else if ["venmo", "pay_later"].contains method then some "paypal"
  else if ["apple_pay", "google_pay"].contains method then some "paypal"
  else if currency == "INR" then some "razorpay" else some "paypal"

/-- `ProviderCapabilities.validate_method_combination`
(`payment_method_validator.py:132-163`): the `valid` flag and the error list.
(`wallet_provider` is accepted and ignored by the source as well.) -/
def validate_method_combination (provider method : String)
    (upi_app card_network _wallet_provider : Option String) :
    Bool × List String :=
  let errors : List String :=
    (if ¬ is_method_supported provider method then
      ["Payment method '" ++ method ++ "' is not supported by " ++ provider]
     else []) ++
    (if provider.toLower == "razorpay" then
      (match upi_app with
       | some app =>
         if method == "upi" && ¬ razorpayUpiApps.contains app.toLower then
           ["UPI app '" ++ app ++ "' is not supported"]
         else []
       | none => []) ++
      (match card_network with
       | some net =>
         if ¬ supportedCardNetworks.contains net.toLower then
           ["Card network '" ++ net ++ "' is not supported"]
         else []
       | none => [])
     else [])
  (errors.length == 0, errors)

/-! ### Idempotency: durable records (spec-modelled service) and locks -/

/-- A response body, as the JSON dict stored and replayed by the idempotency
layer (string-valued fields suffice for every embedded use). -/
abbrev RespBody := List (String × String)

/-- A durable idempotency record keyed by `(api_key_id, idempotency_key)`
(spec §3 "Idempotency Record"). -/
structure IdempotencyRecord where
  api_key_id : String
  idempotency_key : String
  request_hash : String
  response_body : RespBody
  response_status_code : Nat
deriving DecidableEq, Repr

/-- Modelled from the spec: the request-hash function of the missing
`idempotency_service.py` ("stores a hash of the normalized request body",
spec §3).  The hash is idealized as the identity injection on the normalized
string, which gives it exactly the collision-freeness the spec assumes. -/
def reqHash (normalized_request : String) : String := normalized_request

/-- Modelled from the spec: `IdempotencyService.get_idempotency_response`
(`LookupCompleted(key) -> CachedResponse | None`, spec §4.4) of the missing
`idempotency_service.py` — look up the durable record for
`(api_key_id, idempotency_key)`. -/
def get_idempotency_response (records : List IdempotencyRecord)
    (api_key_id idempotency_key : String) : Option IdempotencyRecord :=
  records.find? (fun r =>
    r.api_key_id == api_key_id && r.idempotency_key == idempotency_key)

/-- Modelled from the spec: `IdempotencyService.validate_request_hash`
(`ValidateRequestHash(key, normalized_request) -> bool`, spec §4.4) of the
missing `idempotency_service.py` — `true` when no durable record exists or
its stored hash matches the hash of the new request. -/
def validate_request_hash (records : List IdempotencyRecord)
    (api_key_id idempotency_key request_body_str : String) : Bool :=
  match get_idempotency_response records api_key_id idempotency_key with
  | some r => r.request_hash == reqHash request_body_str
  | none => true

/-- Modelled from the spec: `IdempotencyService.store_idempotency_response`
(`Complete(key, response, status)`, spec §4.4) of the missing
`idempotency_service.py` — persist the durable record. -/
def store_idempotency_response (records : List IdempotencyRecord)
    (api_key_id idempotency_key request_body_str : String)
    (response_body : RespBody) (response_status_code : Nat) :
    List IdempotencyRecord :=
  records ++ [{ api_key_id := api_key_id, idempotency_key := idempotency_key,
                request_hash := reqHash request_body_str,
                response_body := response_body,
                response_status_code := response_status_code }]

/-- `CacheService.acquire_idempotency_lock` (`cache.py:255-269`): the Redis
`SET key 1 NX EX ttl` set-if-absent; returns whether the lock was acquired
and the updated lock set (lock keys are identified by their idempotency
key). -/
def acquire_idempotency_lock (locks : List String) (idempotency_key : String) :
    Bool × List String :=
  if locks.contains idempotency_key then (false, locks)
  else (true, idempotency_key :: locks)

/-- `CacheService.release_idempotency_lock` (`cache.py:271-276`): the Redis
`DEL` of the lock key. -/
def release_idempotency_lock (locks : List String) (idempotency_key : String) :
    List String :=
  locks.erase idempotency_key

/-! ### `create_payment_order` (routes/unified_api.py) -/

/-- A Python value as it appears in `request.dict()`: strings, `None`, the
`Decimal` amount, and the optional `notes` sub-dict. -/
inductive PyVal : Type
  | str (s : String)
  | decimal (mantissa : Int) (scale : Nat)
  | noneV
  | strDict (d : List (String × String))
deriving DecidableEq, Repr

/-- Python string comparison (lexicographic by code point), used for
`sort_keys=True`. -/
def pyStrLe (a b : String) : Bool := lexLe (strBytes a) (strBytes b)

/-- Insertion step for sorting dict entries by key (`sort_keys=True`). -/
def insertByKey {β : Type} (p : String × β) : List (String × β) → List (String × β)
  | [] => [p]
  | q :: r => if pyStrLe p.1 q.1 then p :: q :: r else q :: insertByKey p r

/-- Key-sort of dict entries, as performed by `json.dumps(…, sort_keys=True)`. -/
def sortByKey {β : Type} : List (String × β) → List (String × β)
  | [] => []
  | p :: r => insertByKey p (sortByKey r)

/-- Rendering of a string-valued sub-dict by `json.dumps` (key-sorted). -/
def renderStrDict (d : List (String × String)) : String :=
  "\x7b" ++
    String.intercalate ", "
      ((sortByKey d).map (fun p => "\"" ++ p.1 ++ "\": \"" ++ p.2 ++ "\"")) ++
    "\x7d"

/-- Rendering of one value by `json.dumps`.  A `Decimal` is not JSON
serializable: the standard-library encoder raises `TypeError`. -/
def renderPyVal : PyVal → Except String String
  | .str s => .ok ("\"" ++ s ++ "\"")
  | .decimal _ _ => .error "Object of type Decimal is not JSON serializable"
  | .noneV => .ok "null"
  | .strDict d => .ok (renderStrDict d)

/-- Rendering of the key-sorted entries of a dict by `json.dumps`. -/
def renderEntries : List (String × PyVal) → Except String (List String)
  | [] => .ok []
  | p :: r =>
    match renderPyVal p.2 with
    | .error e => .error e
    | .ok v =>
      match renderEntries r with
      | .error e => .error e
      | .ok vs => .ok (("\"" ++ p.1 ++ "\": " ++ v) :: vs)

/-- `json.dumps(d, sort_keys=True)` for a Python dict
(`unified_api.py:190`): fails with `TypeError` when any value is a
`Decimal`. -/
def pyJsonDumps (d : List (String × PyVal)) : Except String String :=
  match renderEntries (sortByKey d) with
  | .error e => .error e
  | .ok vs => .ok ("\x7b" ++ String.intercalate ", " vs ++ "\x7d")

/-- The validated `PaymentOrderRequest` body (`unified_api.py:36-58`).  After
pydantic validation `amount` is always a `Decimal` (the `pre=True` validator
coerces strings, ints and floats to `Decimal`), represented by mantissa and
scale.  Optional empty-string values are normalized to `none` (Python
truthiness folds them together at every use site). -/
structure PaymentOrderRequest where
  amountMantissa : Int
  amountScale : Nat
  currency : String
  provider : Option String
  method : Option String
  receipt : Option String
  notes : Option (List (String × String))
  idempotency_key : Option String
  upi_app : Option String
  emi_plan : Option String
  card_network : Option String
  wallet_provider : Option String
  bank_code : Option String
deriving DecidableEq, Repr

/-- Rendering of an optional string field in `request.dict()`. -/
def optVal (o : Option String) : PyVal :=
  match o with
  | some s => .str s
  | none => .noneV

/-- `request.dict()` (`unified_api.py:190`): the pydantic field dict; the
amount is a `Decimal` value. -/
def PaymentOrderRequest.dict (r : PaymentOrderRequest) : List (String × PyVal) :=
  [("amount", .decimal r.amountMantissa r.amountScale),
   ("currency", .str r.currency),
   ("provider", optVal r.provider),
   ("method", optVal r.method),
   ("receipt", optVal r.receipt),
   ("notes", match r.notes with | some d => .strDict d | none => .noneV),
   ("idempotency_key", optVal r.idempotency_key),
   ("upi_app", optVal r.upi_app),
   ("emi_plan", optVal r.emi_plan),
   ("card_network", optVal r.card_network),
   ("wallet_provider", optVal r.wallet_provider),
   ("bank_code", optVal r.bank_code)]

/-- How a request handler terminates, as seen by the HTTP layer: a normal
response, a raised `HTTPException`, or an unhandled Python exception (which
the framework maps to a bare 500 after the handler has terminated). -/
inductive HandlerExit : Type
  | ok (status : Nat) (body : RespBody)
  | httpError (status : Nat) (detail : String)
  | pyError (msg : String)
deriving DecidableEq, Repr

/-- The backing state read and written by `create_payment_order`.
`providerCalls` records each side-effecting `adapter.create_order` provider
call that was issued.  (TransactionLog rows are written but never read back
by any embedded path and are not tracked.) -/
structure PayState where
  cm : CredentialManager
  db : List ServiceCredentialRec
  users : List UserRec
  processEnv : List (Bytes × Bytes)
  records : List IdempotencyRecord
  locks : List String
  providerCalls : List String
deriving DecidableEq, Repr

/-- Result of running a handler: its exit and the final backing state. -/
structure HandlerOutcome where
  exit : HandlerExit
  state : PayState
deriving DecidableEq, Repr

/-- The `auth_data` produced by `get_api_user`: the user id, the API key row
id, and the key's environment. -/
structure AuthData where
  id : String
  api_key_id : String
  environment : Option String
deriving DecidableEq, Repr

/-- `str(e)` for the exceptions `get_adapter` raises (the message of
`ProviderNotConfiguredException` is modelled from the spec's structured
`ProviderNotConfigured{provider, …}` error). -/
def GetAdapterError.pyMessage : GetAdapterError → String
  | .providerNotConfigured p => "Provider " ++ p ++ " is not configured"
  | .decryptFailed (.valueError m) => m
  | .unsupportedService m => m

/-- `create_payment_order` (`unified_api.py:132-351`).

Explicit nondeterministic inputs: `genIdemKey` is the generated fallback
idempotency key (`unified_api.py:167`), `provisionNonce` the nonce consumed
if auto-provisioning encrypts credentials, and `providerOutcome` the result
of the provider network call `adapter.create_order` (response body, or the
exception it raised).

Control-flow notes, mirroring the source:
* the durable-record lookup (lines 173-179) precedes hash validation and
  returns the cached body directly (the pydantic re-validation of the stored
  body is assumed to succeed; were it to fail, the same `except Exception`
  would swallow it and fall through);
* the `HTTPException(422)` raised on a request-hash mismatch (lines 193-197)
  is inside `try: … except Exception` (lines 191-199) and is therefore
  caught and only logged — execution continues;
* `json.dumps(request.dict(), sort_keys=True)` (line 190) runs after lock
  acquisition (line 182) but before the `try`/`finally` (lines 214/349), so
  an exception there terminates the handler with the lock still held;
* every exit passing through the `try` statement runs the `finally` that
  releases the lock. -/
def create_payment_order (st : PayState) (auth : AuthData)
    (request : PaymentOrderRequest) (genIdemKey : String)
    (provisionNonce : Bytes) (providerOutcome : Except String RespBody) :
    HandlerOutcome :=
  let provider1 : Option String :=
    match request.provider, request.method with
    | none, some m => get_preferred_provider m request.currency
    | p, _ => p
  let provider := provider1.getD "razorpay"
  let idempotency_key := request.idempotency_key.getD genIdemKey
  let api_key_id := auth.api_key_id
  match get_idempotency_response st.records api_key_id idempotency_key with
  | some cached => ⟨.ok 200 cached.response_body, st⟩
  | none =>
    let (lock_acquired, locks') := acquire_idempotency_lock st.locks idempotency_key
    if ¬ lock_acquired then
      ⟨.httpError 409 "Duplicate request in progress. Please retry after a moment.", st⟩
    else
      let st := { st with locks := locks' }
      match pyJsonDumps request.dict with
      | .error msg =>
        -- line 190 raises before the try/finally: the handler dies with the
        -- lock still in `st.locks`
        ⟨.pyError ("TypeError: " ++ msg), st⟩
      | .ok request_body_str =>
        -- lines 191-199: a `false` verdict would raise HTTPException(422),
        -- but that raise is swallowed by the enclosing `except Exception`
        let _is_valid :=
          validate_request_hash st.records api_key_id idempotency_key request_body_str
        let finish : HandlerExit → PayState → HandlerOutcome := fun e s =>
          ⟨e, { s with locks := release_idempotency_lock s.locks idempotency_key }⟩
        match get_adapter st.cm st.db st.users st.processEnv auth.id provider
            (some (auth.environment.getD "test")) provisionNonce with
        | .error e =>
          finish (.httpError 500 ("Payment creation failed: " ++ e.pyMessage)) st
        | .ok (_adapter, db') =>
          let st := { st with db := db' }
          let methodErrors : Option (List String) :=
            match request.method with
            | some m =>
              let (valid, errs) := validate_method_combination provider m
                request.upi_app request.card_network request.wallet_provider
              if valid then none else some errs
            | none => none
          match methodErrors with
          | some errs =>
            finish (.httpError 400
              ("Payment method validation failed: " ++ String.intercalate ", " errs)) st
          | none =>
            -- adapter.create_order (line 275): the provider side effect
            let st := { st with providerCalls := st.providerCalls ++ [provider] }
            match providerOutcome with
            | .error msg =>
              finish (.httpError 500 ("Payment creation failed: " ++ msg)) st
            | .ok result =>
              let result :=
                match request.method with
                | some m => pyInsert result "payment_method" m
                | none => result
              let st := { st with records :=
                (store_idempotency_response st.records api_key_id idempotency_key
                  request_body_str result 200) }
              finish (.ok 200 result) st

/-! ### Webhook verification and endpoints (webhook_verifier.py, routes/webhooks.py) -/

/-- The backing state of the webhook endpoints: vault, credential rows, the
`webhook_events` table and the wall clock (integer seconds). -/
structure WebState where
  cm : CredentialManager
  db : List ServiceCredentialRec
  webhookEvents : List WebhookEventRec
  now : Int
deriving DecidableEq, Repr

/-- `hmac.new(secret, body, hashlib.sha256).hexdigest()`
(`webhook_verifier.py:49-53`), modelled as an ideal MAC: a deterministic
injective keyed function of secret and body (collision behaviour is
irrelevant to the claims). -/
def hmacSha256Hex (secret body : Bytes) : String :=
  "hmac-sha256:" ++ toString secret ++ ":" ++ toString body

/-- `WebhookVerifier.verify_razorpay_signature` (`webhook_verifier.py:31-58`):
constant-time comparison of the computed and supplied signatures. -/
def verify_razorpay_signature (body : Bytes) (signature : String)
    (webhook_secret : Bytes) : Bool :=
  hmacSha256Hex webhook_secret body == signature

/-- Digit-string evaluation: `none` on a non-digit character. -/
def charDigitsVal : List Char → Nat → Option Nat
  | [], acc => some acc
  | c :: cs, acc =>
    if 48 ≤ c.toNat ∧ c.toNat ≤ 57 then
      charDigitsVal cs (acc * 10 + (c.toNat - 48))
    else none

/-- `datetime.fromisoformat(ts.replace('Z', '+00:00'))`
(`webhook_verifier.py:193`), with timestamps modelled as nonnegative
integer-second strings; `none` models the `ValueError` on an unparsable
string. -/
def parseIsoTimestamp (s : String) : Option Int :=
  match s.data with
  | [] => none
  | cs => (charDigitsVal cs 0).map (fun n => (n : Int))

/-- `WebhookVerifier._check_paypal_replay_protection`
(`webhook_verifier.py:163-207`): reject when some stored PayPal
`webhook_events` row has `signature == transmission_id`, or when the
timestamp is unparsable or more than 300 seconds from now. -/
def _check_paypal_replay_protection (st : WebState)
    (transmission_id transmission_time : String) : Bool :=
  if (st.webhookEvents.find? (fun e =>
      e.service_name == "paypal" && e.signature == transmission_id)).isSome then
    false
  else
    match parseIsoTimestamp transmission_time with
    | some t => if (st.now - t).natAbs > 300 then false else true
    | none => false

/-- Python truthiness of an optional header value (`all([...])`). -/
def hdrPresent (o : Option String) : Bool :=
  match o with
  | some s => s ≠ ""
  | none => false

/-- `WebhookVerifier.verify_paypal_signature` (`webhook_verifier.py:60-110`),
with the extracted header values passed directly and the remote
`adapter.verify_webhook_signature` PayPal API verdict supplied as
`providerVerifies`. -/
def verify_paypal_signature (st : WebState)
    (transmission_id transmission_time cert_url transmission_sig : Option String)
    (_webhook_id : String) (_body : Bytes) (providerVerifies : Bool) : Bool :=
  if ¬ (hdrPresent transmission_id && hdrPresent transmission_time &&
        hdrPresent cert_url && hdrPresent transmission_sig) then
    false
  else if ¬ _check_paypal_replay_protection st (transmission_id.getD "")
      (transmission_time.getD "") then
    false
  else providerVerifies

/-- The parsed Razorpay webhook JSON, reduced to the fields the endpoint
reads: the event name and the `onerouter_user_id` found through the
`payload.(payment|order|subscription).entity.notes` chain
(`webhooks.py:93-99`).  A missing or empty id (both falsy in
`if not user_id`) is represented as `none`. -/
structure RazorpayEvent where
  event : String
  notes_user_id : Option String
deriving DecidableEq, Repr

/-- The parsed PayPal webhook JSON, reduced to the fields the endpoint reads:
the event type and `resource.custom_id` (`webhooks.py:209`).  A missing or
empty id (both falsy in `if not user_id`) is represented as `none`. -/
structure PaypalEvent where
  event_type : String
  custom_id : Option String
deriving DecidableEq, Repr

/-- `razorpay_webhook` (`webhooks.py:59-173`).  `event = none` models a body
that fails JSON parsing.  The row insert and the subsequent mark-processed
update (lines 138-171) are collapsed into appending the final row. -/
def razorpay_webhook (st : WebState) (body : Bytes) (signature : Option String)
    (event : Option RazorpayEvent) : HandlerExit × WebState :=
  if ¬ hdrPresent signature then
    (.httpError 400 "Missing X-Razorpay-Signature header", st)
  else
    match event with
    | none => (.httpError 400 "Invalid JSON payload", st)
    | some ev =>
      match ev.notes_user_id with
      | none =>
        (.httpError 400
          "Cannot identify user. Add 'onerouter_user_id' in notes when creating orders.",
         st)
      | some user_id =>
        match scalarOneOrNone (activeCreds st.db user_id "razorpay" none) with
        | none => (.httpError 400 "Invalid webhook request", st)
        | some _credential =>
          match WebhookVerifier.get_user_credentials st.cm st.db user_id "razorpay" with
          | none => (.httpError 400 "Invalid webhook request", st)
          | some creds =>
            match pyLookup creds (strBytes "RAZORPAY_WEBHOOK_SECRET") with
            | none => (.httpError 400 "Invalid webhook request", st)
            | some webhook_secret =>
              if webhook_secret = [] then
                (.httpError 400 "Invalid webhook request", st)
              else if ¬ verify_razorpay_signature body (signature.getD "") webhook_secret then
                (.httpError 400 "Invalid webhook request", st)
              else
                let row : WebhookEventRec :=
                  { user_id := user_id, service_name := "razorpay",
                    event_type := ev.event, signature := signature.getD "",
                    processed := true }
                (.ok 200 [("status", "received")],
                 { st with webhookEvents := st.webhookEvents ++ [row] })

/-- `paypal_webhook` (`webhooks.py:176-284`).  Note that the stored row's
`signature` column receives `transmission_sig` (line 258), while the replay
check matches that column against `transmission_id`
(`webhook_verifier.py:184`). -/
def paypal_webhook (st : WebState) (body : Bytes)
    (transmission_id transmission_time cert_url _auth_algo transmission_sig : Option String)
    (event : Option PaypalEvent) (providerVerifies : Bool) :
    HandlerExit × WebState :=
  if ¬ (hdrPresent transmission_id && hdrPresent transmission_time &&
        hdrPresent cert_url && hdrPresent transmission_sig) then
    (.httpError 400 "Missing PayPal webhook headers", st)
  else
    match event with
    | none => (.httpError 400 "Invalid JSON payload", st)
    | some ev =>
      match ev.custom_id with
      | none =>
        (.httpError 400 "Cannot identify user. Add 'custom_id' when creating PayPal orders.",
         st)
      | some user_id =>
        match scalarOneOrNone (activeCreds st.db user_id "paypal" none) with
        | none => (.httpError 404 "User credentials not found", st)
        | some credential =>
          match WebhookVerifier.get_user_credentials st.cm st.db user_id "paypal" with
          | none => (.httpError 404 "User credentials not found", st)
          | some _creds =>
            match pyLookup credential.features_config "paypal_webhook_id" with
            | none => (.httpError 400 "PayPal webhook ID not configured", st)
            | some webhook_id =>
              if webhook_id = "" then
                (.httpError 400 "PayPal webhook ID not configured", st)
              else if ¬ verify_paypal_signature st transmission_id transmission_time
                  cert_url transmission_sig webhook_id body providerVerifies then
                (.httpError 401 "Webhook signature verification failed", st)
              else
                let row : WebhookEventRec :=
                  { user_id := user_id, service_name := "paypal",
                    event_type := ev.event_type,
                    signature := transmission_sig.getD "",
                    processed := true }
                (.ok 200 [("status", "received")],
                 { st with webhookEvents := st.webhookEvents ++ [row] })

/-! ### Vault operation sequences (for the key-table invariant) -/

/-- A mutating vault operation. -/
inductive VaultOp : Type
  | rotate (new_key : Bytes)
  | cleanup (keep_versions : Nat)
deriving DecidableEq, Repr

/-- Apply one vault operation. -/
def applyVaultOp (cm : CredentialManager) : VaultOp → CredentialManager
  | .rotate k => (cm.rotate_encryption_key k).1
  | .cleanup n => (cm.cleanup_old_keys n).1

/-- Apply a sequence of vault operations. -/
def applyVaultOps (cm : CredentialManager) (ops : List VaultOp) : CredentialManager :=
  ops.foldl applyVaultOp cm

/-! ### Sample data used by the concrete witnesses and counterexamples -/

/-- A 32-byte bootstrap key. -/
def sampleKey : Bytes := List.replicate 32 0

/-- The vault obtained from `CredentialManager.__init__` with `sampleKey`. -/
def cm0 : CredentialManager :=
  { current_key_version := 1, encryption_keys := [(1, sampleKey)] }

/-- A small canonical credential map. -/
def m0 : CredMap := [([1], [2])]

/-- A 12-byte nonce. -/
def nonce0 : Bytes := List.replicate 12 0

/-- The blob produced by encrypting `m0` under `cm0` with `nonce0`. -/
def sampleBlob : Bytes := (cm0.encrypt_credentials m0 nonce0).getD []

/-- A credential row for user `u1`, provider razorpay, stored only in the
live environment, encrypted as `sampleBlob`. -/
def liveCred : ServiceCredentialRec :=
  { user_id := "u1", provider_name := "razorpay", environment := "live",
    encrypted_credential := sampleBlob, features_config := [], is_active := true }

/-- A credential row whose encrypted blob is corrupt (empty, so decryption
fails). -/
def corruptCred : ServiceCredentialRec :=
  { user_id := "u1", provider_name := "razorpay", environment := "test",
    encrypted_credential := [], features_config := [], is_active := true }

/-- Authentication data for user `u1` holding API key `ak1` in the test
environment. -/
def auth1 : AuthData :=
  { id := "u1", api_key_id := "ak1", environment := some "test" }

/-- A durable idempotency record for `(ak1, "k")` left by a completed first
call, whose stored hash differs from any later body. -/
def rec1 : IdempotencyRecord :=
  { api_key_id := "ak1", idempotency_key := "k",
    request_hash := "stored-hash-of-first-body",
    response_body := [("transaction_id", "txn_first"), ("status", "created")],
    response_status_code := 200 }

/-- A second payment-order request reusing idempotency key `"k"` with a
different body (mutated amount). -/
def req1 : PaymentOrderRequest :=
  { amountMantissa := 20000, amountScale := 2, currency := "INR",
    provider := some "razorpay", method := none, receipt := none,
    notes := none, idempotency_key := some "k", upi_app := none,
    emi_plan := none, card_network := none, wallet_provider := none,
    bank_code := none }

/-- A payment-order request with idempotency key `"k4"`. -/
def req4 : PaymentOrderRequest :=
  { req1 with idempotency_key := some "k4" }

/-- Backing state for the C1 scenario: the durable record `rec1` exists and
no lock is held. -/
def stC1 : PayState :=
  { cm := cm0, db := [liveCred], users := [], processEnv := [],
    records := [rec1], locks := [], providerCalls := [] }

/-- Backing state for the C4 scenario: no durable record, no lock held. -/
def stC4 : PayState :=
  { cm := cm0, db := [liveCred], users := [], processEnv := [],
    records := [], locks := [], providerCalls := [] }

/-- A PayPal credential row for user `u1` with a configured webhook id. -/
def paypalCred : ServiceCredentialRec :=
  { user_id := "u1", provider_name := "paypal", environment := "live",
    encrypted_credential := sampleBlob,
    features_config := [("paypal_webhook_id", "wh1")], is_active := true }

/-- Webhook backing state: the PayPal credential configured, no prior
webhook events, clock at second 1000. -/
def stW : WebState :=
  { cm := cm0, db := [paypalCred], webhookEvents := [], now := 1000 }

/-- One fixed PayPal webhook delivery: transmission id `TID1`, timestamp 900
(inside the freshness window of `stW.now = 1000`), signature `SIG1`, a
remotely-verified signature, attributed to user `u1`. -/
def ppDelivery (st : WebState) : HandlerExit × WebState :=
  paypal_webhook st [] (some "TID1") (some "900")
    (some "https://api.paypal.com/cert") (some "SHA256withRSA") (some "SIG1")
    (some { event_type := "PAYMENT.CAPTURE.COMPLETED", custom_id := some "u1" })
    true

/-! ## Theorems -/

/-! ### List and dict helper lemmas -/

theorem enc4_length (n : Nat) : (enc4 n).length = 4 := rfl

theorem dec4_enc4 {n : Nat} (h : n < 2 ^ 32) : dec4 (enc4 n) = n := by
  simp only [dec4, enc4, List.foldl]
  omega

theorem gcmTag_length (key nonce data : Bytes) : (gcmTag key nonce data).length = 16 := by
  simp [gcmTag]

theorem gcmEncrypt_length (key nonce data : Bytes) :
    (gcmEncrypt key nonce data).length = data.length + 16 := by
  simp [gcmEncrypt, gcmTag_length]

theorem gcmDecrypt_gcmEncrypt (key nonce data : Bytes) :
    gcmDecrypt key nonce (gcmEncrypt key nonce data) = some data := by
  have hlen : (gcmEncrypt key nonce data).length = data.length + 16 :=
    gcmEncrypt_length key nonce data
  have htake : (gcmEncrypt key nonce data).take
      ((gcmEncrypt key nonce data).length - 16) = data := by
    rw [hlen]
    simp only [Nat.add_sub_cancel, gcmEncrypt]
    exact List.take_left data (gcmTag key nonce data)
  have hdrop : (gcmEncrypt key nonce data).drop
      ((gcmEncrypt key nonce data).length - 16) = gcmTag key nonce data := by
    rw [hlen]
    simp only [Nat.add_sub_cancel, gcmEncrypt]
    exact List.drop_left data (gcmTag key nonce data)
  unfold gcmDecrypt
  rw [if_pos (by omega), htake, hdrop, if_pos rfl]

theorem pyLookup_pyInsert_self {α β : Type} [DecidableEq α]
    (l : List (α × β)) (k : α) (v : β) : pyLookup (pyInsert l k v) k = some v := by
  induction l with
  | nil => simp [pyInsert, pyLookup, List.find?]
  | cons p r ih =>
    by_cases h : p.1 = k
    · simp [pyInsert, h, pyLookup, List.find?]
    · simp only [pyInsert, if_neg h]
      simp only [pyLookup, List.find?] at ih ⊢
      simp [h, ih]

theorem pyLookup_pyInsert_ne {α β : Type} [DecidableEq α]
    (l : List (α × β)) (k k' : α) (v : β) (h : k' ≠ k) :
    pyLookup (pyInsert l k v) k' = pyLookup l k' := by
  induction l with
  | nil => simp [pyInsert, pyLookup, List.find?, Ne.symm h]
  | cons p r ih =>
    by_cases hp : p.1 = k
    · simp [pyInsert, hp, pyLookup, List.find?, Ne.symm h, hp ▸ (Ne.symm h)]
    · simp only [pyInsert, if_neg hp]
      simp only [pyLookup, List.find?] at ih ⊢
      by_cases hk' : p.1 = k'
      · simp [hk']
      · simp [hk', ih]

theorem pyLookup_pyErase_ne {α β : Type} [DecidableEq α]
    (l : List (α × β)) (k k' : α) (h : k' ≠ k) :
    pyLookup (pyErase l k) k' = pyLookup l k' := by
  induction l with
  | nil => simp [pyErase]
  | cons p r ih =>
    by_cases hp : p.1 = k
    · simp only [pyErase, if_pos hp, pyLookup, List.find?]
      have : ¬ p.1 = k' := by rw [hp]; exact Ne.symm h
      simp [this]
    · simp only [pyErase, if_neg hp, pyLookup, List.find?] at ih ⊢
      by_cases hk' : p.1 = k'
      · simp [hk']
      · simp [hk', ih]

/-! ### Serialization round-trip -/

theorem encodePair_length (p : Bytes × Bytes) :
    (encodePair p).length = 8 + p.1.length + p.2.length := by
  simp [encodePair, enc4]
  omega

theorem length_le_flatMap_encodePair (m : CredMap) :
    m.length ≤ (m.flatMap encodePair).length := by
  induction m with
  | nil => simp
  | cons p r ih =>
    simp only [List.flatMap_cons, List.length_append, List.length_cons,
      encodePair_length]
    omega

theorem jsonLoadsGo_flatMap_encodePair (m : CredMap) :
    ∀ fuel : Nat, m.length ≤ fuel →
    (∀ p ∈ m, p.1.length < 2 ^ 32 ∧ p.2.length < 2 ^ 32) →
    jsonLoadsGo fuel (m.flatMap encodePair) = some m := by
  induction m with
  | nil => intro fuel _ _; simp [jsonLoadsGo]
  | cons p r ih =>
    intro fuel hf hlen
    obtain ⟨k, v⟩ := p
    match fuel, hf with
    | fuel + 1, hf2 =>
      have hk32 : k.length < 2 ^ 32 := (hlen (k, v) (by simp)).1
      have hv32 : v.length < 2 ^ 32 := (hlen (k, v) (by simp)).2
      have hbytes : (((k, v) :: r).flatMap encodePair) =
          (k.length / 2 ^ 24 % 256) :: (k.length / 2 ^ 16 % 256) ::
          (k.length / 2 ^ 8 % 256) :: (k.length % 256) ::
          (k ++ (enc4 v.length ++ (v ++ r.flatMap encodePair))) := by
        simp [encodePair, enc4, List.append_assoc]
      rw [hbytes]
      rw [jsonLoadsGo]
      have hlen1 : 4 ≤ ((k.length / 2 ^ 24 % 256) :: (k.length / 2 ^ 16 % 256) ::
          (k.length / 2 ^ 8 % 256) :: (k.length % 256) ::
          (k ++ (enc4 v.length ++ (v ++ r.flatMap encodePair)))).length := by
        simp
      rw [if_pos hlen1]
      have htake4 : ((k.length / 2 ^ 24 % 256) :: (k.length / 2 ^ 16 % 256) ::
          (k.length / 2 ^ 8 % 256) :: (k.length % 256) ::
          (k ++ (enc4 v.length ++ (v ++ r.flatMap encodePair)))).take 4 = enc4 k.length := by
        simp [enc4, List.take]
      have hdrop4 : ((k.length / 2 ^ 24 % 256) :: (k.length / 2 ^ 16 % 256) ::
          (k.length / 2 ^ 8 % 256) :: (k.length % 256) ::
          (k ++ (enc4 v.length ++ (v ++ r.flatMap encodePair)))).drop 4 =
          k ++ (enc4 v.length ++ (v ++ r.flatMap encodePair))  := by
        simp [List.drop]
      rw [htake4, hdrop4, dec4_enc4 hk32]
      have hk_le : k.length ≤ (k ++ (enc4 v.length ++ (v ++ r.flatMap encodePair))).length := by
        simp
      rw [if_pos hk_le, List.take_left, List.drop_left]
      have hbytes2 : enc4 v.length ++ (v ++ r.flatMap encodePair) =
          (v.length / 2 ^ 24 % 256) :: (v.length / 2 ^ 16 % 256) ::
          (v.length / 2 ^ 8 % 256) :: (v.length % 256) ::
          (v ++ r.flatMap encodePair) := by
        simp [enc4]
      rw [hbytes2]
      have hlen2 : 4 ≤ ((v.length / 2 ^ 24 % 256) :: (v.length / 2 ^ 16 % 256) ::
          (v.length / 2 ^ 8 % 256) :: (v.length % 256) ::
          (v ++ r.flatMap encodePair)).length := by simp
      rw [if_pos hlen2]
      have htake4' : ((v.length / 2 ^ 24 % 256) :: (v.length / 2 ^ 16 % 256) ::
          (v.length / 2 ^ 8 % 256) :: (v.length % 256) ::
          (v ++ r.flatMap encodePair)).take 4 = enc4 v.length := by
        simp [enc4, List.take]
      have hdrop4' : ((v.length / 2 ^ 24 % 256) :: (v.length / 2 ^ 16 % 256) ::
          (v.length / 2 ^ 8 % 256) :: (v.length % 256) ::
          (v ++ r.flatMap encodePair)).drop 4 = v ++ r.flatMap encodePair := by
        simp [List.drop]
      rw [htake4', hdrop4', dec4_enc4 hv32]
      have hv_le : v.length ≤ (v ++ r.flatMap encodePair).length := by simp
      rw [if_pos hv_le, List.take_left, List.drop_left]
      have hrest : jsonLoadsGo fuel (r.flatMap encodePair) = some r :=
        ih fuel (by simp only [List.length_cons] at hf2; omega)
          (fun q hq => hlen q (by simp [hq]))
      simp only [hrest]

theorem jsonLoads_jsonDumps {m : CredMap} (hm : ValidCredMap m) :
    jsonLoads (jsonDumps m) = some m := by
  have hsort : sortEntries m = m := hm.1
  unfold jsonLoads jsonDumps
  rw [hsort]
  exact jsonLoadsGo_flatMap_encodePair m (m.flatMap encodePair).length
    (length_le_flatMap_encodePair m) hm.2

/-! ### Vault round-trip -/

/-- Core round-trip: a blob produced by `encrypt_credentials` under key
version `v` decrypts to the original map in any vault whose key table still
maps `v` to the same key. -/
theorem decrypt_of_encrypt (cm cm' : CredentialManager) (m : CredMap)
    (nonce key blob : Bytes)
    (hk : pyLookup cm.encryption_keys cm.current_key_version = some key)
    (hk' : pyLookup cm'.encryption_keys cm.current_key_version = some key)
    (hv : cm.current_key_version < 2 ^ 32)
    (hn : nonce.length = 12)
    (hm : ValidCredMap m)
    (hb : cm.encrypt_credentials m nonce = some blob) :
    cm'.decrypt_credentials blob = .ok m := by
  unfold CredentialManager.encrypt_credentials at hb
  rw [hk] at hb
  simp only [Option.some.injEq] at hb
  subst hb
  have hctlen : (gcmEncrypt key nonce (jsonDumps m)).length = (jsonDumps m).length + 16 :=
    gcmEncrypt_length key nonce (jsonDumps m)
  have hlen : 16 < (enc4 cm.current_key_version ++ nonce ++
      gcmEncrypt key nonce (jsonDumps m)).length := by
    simp only [List.length_append, enc4_length, hn, hctlen]
    omega
  have ht4 : (enc4 cm.current_key_version ++ nonce ++
      gcmEncrypt key nonce (jsonDumps m)).take 4 = enc4 cm.current_key_version := by
    rw [List.append_assoc]
    conv_lhs =>
      rw [show (4 : Nat) = (enc4 cm.current_key_version).length from rfl]
    exact List.take_left _ _
  have hd4 : (enc4 cm.current_key_version ++ nonce ++
      gcmEncrypt key nonce (jsonDumps m)).drop 4 =
      nonce ++ gcmEncrypt key nonce (jsonDumps m) := by
    rw [List.append_assoc]
    conv_lhs =>
      rw [show (4 : Nat) = (enc4 cm.current_key_version).length from rfl]
    exact List.drop_left _ _
  have ht12 : (nonce ++ gcmEncrypt key nonce (jsonDumps m)).take 12 = nonce := by
    conv_lhs => rw [← hn]
    exact List.take_left _ _
  have hd16 : (enc4 cm.current_key_version ++ nonce ++
      gcmEncrypt key nonce (jsonDumps m)).drop 16 =
      gcmEncrypt key nonce (jsonDumps m) := by
    conv_lhs =>
      rw [show (16 : Nat) = (enc4 cm.current_key_version ++ nonce).length by
        simp [enc4_length, hn]]
    exact List.drop_left _ _
  unfold CredentialManager.decrypt_credentials
  rw [if_pos hlen, ht4, dec4_enc4 hv, hk', hd4, ht12, hd16]
  simp only [gcmDecrypt_gcmEncrypt, jsonLoads_jsonDumps hm]

/-- C5: for every valid credential map `m` (canonical string-keyed map),
12-byte nonce and vault whose current key is present (with the version number
below `2 ^ 32`), `encrypt_credentials` succeeds and
`decrypt_credentials (encrypt_credentials m)` returns exactly `m`. -/
theorem c5_decrypt_encrypt_roundtrip (cm : CredentialManager) (m : CredMap)
    (nonce key : Bytes)
    (hk : pyLookup cm.encryption_keys cm.current_key_version = some key)
    (hv : cm.current_key_version < 2 ^ 32)
    (hn : nonce.length = 12)
    (hm : ValidCredMap m) :
    ∃ blob, cm.encrypt_credentials m nonce = some blob ∧
      cm.decrypt_credentials blob = .ok m := by
  have hb : cm.encrypt_credentials m nonce =
      some (enc4 cm.current_key_version ++ nonce ++
        gcmEncrypt key nonce (jsonDumps m)) := by
    unfold CredentialManager.encrypt_credentials
    rw [hk]
  exact ⟨_, hb, decrypt_of_encrypt cm cm m nonce key _ hk hk hv hn hm hb⟩

/-- Witness for C5 at a concrete vault, map and nonce. -/
theorem c5_witness :
    ∃ blob, cm0.encrypt_credentials m0 nonce0 = some blob ∧
      cm0.decrypt_credentials blob = .ok m0 :=
  c5_decrypt_encrypt_roundtrip cm0 m0 nonce0 sampleKey (by decide) (by decide)
    (by decide) (by decide)

/-- C6: encrypting under version `N`, then rotating to `N + 1`, leaves the
version-`N` ciphertext decryptable to the original map, while the rotation
returns `N + 1`, installs it as current, and every subsequent encryption
embeds version `N + 1` and uses the new key. -/
theorem c6_rotation_durability (cm : CredentialManager) (m : CredMap)
    (nonce key new_key blob : Bytes)
    (hk : pyLookup cm.encryption_keys cm.current_key_version = some key)
    (hv : cm.current_key_version + 1 < 2 ^ 32)
    (hn : nonce.length = 12)
    (hm : ValidCredMap m)
    (hb : cm.encrypt_credentials m nonce = some blob) :
    (cm.rotate_encryption_key new_key).2 = cm.current_key_version + 1 ∧
    (cm.rotate_encryption_key new_key).1.current_key_version =
      cm.current_key_version + 1 ∧
    (cm.rotate_encryption_key new_key).1.decrypt_credentials blob = .ok m ∧
    ∀ (m' : CredMap) (nonce' : Bytes),
      (cm.rotate_encryption_key new_key).1.encrypt_credentials m' nonce' =
        some (enc4 (cm.current_key_version + 1) ++ nonce' ++
          gcmEncrypt new_key nonce' (jsonDumps m')) := by
  refine ⟨rfl, rfl, ?_, ?_⟩
  · refine decrypt_of_encrypt cm _ m nonce key blob hk ?_ (by omega) hn hm hb
    show pyLookup (pyInsert cm.encryption_keys (cm.current_key_version + 1) new_key)
      cm.current_key_version = some key
    rw [pyLookup_pyInsert_ne _ _ _ _ (by omega)]
    exact hk
  · intro m' nonce'
    show CredentialManager.encrypt_credentials _ m' nonce' = _
    unfold CredentialManager.encrypt_credentials
    rw [show (cm.rotate_encryption_key new_key).1.encryption_keys =
        pyInsert cm.encryption_keys (cm.current_key_version + 1) new_key from rfl,
      show (cm.rotate_encryption_key new_key).1.current_key_version =
        cm.current_key_version + 1 from rfl,
      pyLookup_pyInsert_self]

/-- Witness for C6 at a concrete vault, map, nonce and rotation key. -/
theorem c6_witness :
    (cm0.rotate_encryption_key (List.replicate 32 1)).1.decrypt_credentials
      sampleBlob = .ok m0 ∧
    (cm0.rotate_encryption_key (List.replicate 32 1)).2 = 2 :=
  ⟨(c6_rotation_durability cm0 m0 nonce0 sampleKey (List.replicate 32 1) sampleBlob
      (by decide) (by decide) (by decide) (by decide) (by decide)).2.2.1,
   by decide⟩

/-- C7 counterexample: decryption failures are not distinguishable as the
claim states.  An unknown key version (blob `enc4 2 ++ …` against a vault
knowing only version 1) produces the very same `ValueError` — same exception
class, same message — as a malformed-length blob, and the same exception
class as an authentication-tag mismatch; there is no distinct
`UnknownKeyVersion` error type. -/
theorem c7_counterexample :
    cm0.decrypt_credentials (enc4 2 ++ nonce0 ++ [0]) =
      .error (.valueError CredentialManager.noKeyMsg) ∧
    cm0.decrypt_credentials [0, 0, 0] =
      .error (.valueError CredentialManager.noKeyMsg) ∧
    cm0.decrypt_credentials (enc4 1 ++ nonce0 ++ List.replicate 17 0) =
      .error (.valueError CredentialManager.invalidTagMsg) ∧
    (PyErr.valueError CredentialManager.noKeyMsg).className =
      (PyErr.valueError CredentialManager.invalidTagMsg).className :=
  ⟨by decide, by decide, by decide, rfl⟩

/-- C7 (amended): decryption of a blob whose version prefix is not in the key
table fails, but with the generic `ValueError` whose message
(`"Failed to decrypt credentials: Could not decrypt data with available
keys"`) is identical to the malformed-length failure; every decryption
failure, tag mismatch included, carries the same Python exception class
`ValueError`, so the causes are not distinguishable as typed errors. -/
theorem c7_unknown_version_generic_error (cm : CredentialManager) (blob : Bytes) :
    (16 < blob.length →
      pyLookup cm.encryption_keys (dec4 (blob.take 4)) = none →
      cm.decrypt_credentials blob = .error (.valueError CredentialManager.noKeyMsg)) ∧
    (blob.length ≤ 16 →
      cm.decrypt_credentials blob = .error (.valueError CredentialManager.noKeyMsg)) ∧
    (∀ e, cm.decrypt_credentials blob = .error e → e.className = "ValueError") := by
  refine ⟨?_, ?_, ?_⟩
  · intro hlen hlk
    unfold CredentialManager.decrypt_credentials
    rw [if_pos hlen, hlk]
  · intro hlen
    unfold CredentialManager.decrypt_credentials
    rw [if_neg (by omega)]
  · intro e _
    cases e
    rfl

/-- Witness for the amended C7 at concrete blobs. -/
theorem c7_witness :
    cm0.decrypt_credentials (enc4 3 ++ nonce0 ++ [0, 0]) =
      .error (.valueError CredentialManager.noKeyMsg) ∧
    cm0.decrypt_credentials [1, 2, 3] =
      .error (.valueError CredentialManager.noKeyMsg) :=
  ⟨(c7_unknown_version_generic_error cm0 (enc4 3 ++ nonce0 ++ [0, 0])).1
      (by decide) (by decide),
   (c7_unknown_version_generic_error cm0 [1, 2, 3]).2.1 (by decide)⟩

/-! ### The key-table invariant (C10) -/

theorem cleanupLoop_lookup_current (current : Nat) (vs : List Nat)
    (keys : List (Nat × Bytes)) :
    pyLookup (CredentialManager.cleanupLoop current vs keys).1 current =
      pyLookup keys current := by
  induction vs generalizing keys with
  | nil => rfl
  | cons v rest ih =>
    by_cases h : v = current
    · simp [CredentialManager.cleanupLoop, h, ih]
    · rw [show CredentialManager.cleanupLoop current (v :: rest) keys =
        ((CredentialManager.cleanupLoop current rest (pyErase keys v)).1,
         (CredentialManager.cleanupLoop current rest (pyErase keys v)).2 + 1) by
          simp [CredentialManager.cleanupLoop, h]]
      rw [ih (pyErase keys v)]
      exact pyLookup_pyErase_ne keys v current (fun hc => h hc.symm)

theorem applyVaultOp_preserves_current_key (cm : CredentialManager) (op : VaultOp)
    (h : (pyLookup cm.encryption_keys cm.current_key_version).isSome) :
    (pyLookup (applyVaultOp cm op).encryption_keys
      (applyVaultOp cm op).current_key_version).isSome := by
  cases op with
  | rotate k =>
    simp [applyVaultOp, CredentialManager.rotate_encryption_key,
      pyLookup_pyInsert_self]
  | cleanup n =>
    unfold applyVaultOp CredentialManager.cleanup_old_keys
    dsimp only
    by_cases hle : cm.encryption_keys.length ≤ n
    · simpa [hle]
    · rw [if_neg hle]
      simpa [cleanupLoop_lookup_current]

/-- C10: after any sequence of vault operations (initialization, key
rotations, cleanups with any `keep_versions` argument), the current key
version is still bound in the key table — `cleanup_old_keys` never deletes
the current key — and therefore `encrypt_credentials` never fails on its
current-key lookup. -/
theorem c10_current_key_always_present (key0 : Bytes) (cm : CredentialManager)
    (hinit : CredentialManager.init key0 = some cm) (ops : List VaultOp)
    (m : CredMap) (nonce : Bytes) :
    (pyLookup (applyVaultOps cm ops).encryption_keys
      (applyVaultOps cm ops).current_key_version).isSome ∧
    ((applyVaultOps cm ops).encrypt_credentials m nonce).isSome := by
  have hbase : (pyLookup cm.encryption_keys cm.current_key_version).isSome := by
    unfold CredentialManager.init at hinit
    by_cases h : key0.length = 32
    · rw [if_pos h] at hinit
      simp only [Option.some.injEq] at hinit
      subst hinit
      simp [pyLookup, List.find?]
    · rw [if_neg h] at hinit
      exact absurd hinit (by simp)
  have hinv : ∀ (l : List VaultOp) (c : CredentialManager),
      (pyLookup c.encryption_keys c.current_key_version).isSome →
      (pyLookup (applyVaultOps c l).encryption_keys
        (applyVaultOps c l).current_key_version).isSome := by
    intro l
    induction l with
    | nil => intro c hc; exact hc
    | cons op rest ih =>
      intro c hc
      exact ih _ (applyVaultOp_preserves_current_key c op hc)
  have h1 := hinv ops cm hbase
  refine ⟨h1, ?_⟩
  unfold CredentialManager.encrypt_credentials
  obtain ⟨k, hk⟩ := Option.isSome_iff_exists.mp h1
  rw [hk]
  rfl

/-- Witness for C10: a concrete initialization, a rotation and a full-table
cleanup still leave the current key present and encryption possible. -/
theorem c10_witness :
    (pyLookup (applyVaultOps cm0
        [VaultOp.rotate (List.replicate 32 1), VaultOp.cleanup 0]).encryption_keys
      (applyVaultOps cm0
        [VaultOp.rotate (List.replicate 32 1), VaultOp.cleanup 0]).current_key_version).isSome ∧
    ((applyVaultOps cm0
        [VaultOp.rotate (List.replicate 32 1), VaultOp.cleanup 0]).encrypt_credentials
      m0 nonce0).isSome :=
  c10_current_key_always_present sampleKey cm0 (by decide)
    [VaultOp.rotate (List.replicate 32 1), VaultOp.cleanup 0] m0 nonce0

/-! ### Credential fetches swallow decryption failures (C8) -/

/-- C8 counterexample: for a stored active credential whose blob fails
decryption with a typed `ValueError`, both credential-fetch operations —
`CredentialManager.get_credentials` and
`WebhookVerifier.get_user_credentials` — return `None` instead of propagating
the error: the failure is converted into a silent absent result. -/
theorem c8_counterexample :
    cm0.decrypt_credentials corruptCred.encrypted_credential =
      .error (.valueError CredentialManager.noKeyMsg) ∧
    CredentialManager.get_credentials cm0 [corruptCred] "u1" "razorpay" "test" = none ∧
    WebhookVerifier.get_user_credentials cm0 [corruptCred] "u1" "razorpay" = none :=
  ⟨by decide, by decide, by decide⟩

/-- C8 (amended): `decrypt_credentials` itself raises a typed error, but both
credential-fetch wrappers catch all exceptions: whenever the matched active
row's blob fails to decrypt, the fetch returns `none` — indistinguishable
from "no credential found" — rather than propagating the typed error. -/
theorem c8_fetch_swallows_decrypt_failure (cm : CredentialManager)
    (db : List ServiceCredentialRec) (uid provider env : String) :
    (∀ (c : ServiceCredentialRec) (e : PyErr),
      scalarOneOrNone (activeCreds db uid provider (some env)) = some c →
      cm.decrypt_credentials c.encrypted_credential = .error e →
      CredentialManager.get_credentials cm db uid provider env = none) ∧
    (∀ (c : ServiceCredentialRec) (e : PyErr),
      scalarOneOrNone (activeCreds db uid provider none) = some c →
      cm.decrypt_credentials c.encrypted_credential = .error e →
      WebhookVerifier.get_user_credentials cm db uid provider = none) := by
  constructor
  · intro c e hfound hdec
    unfold CredentialManager.get_credentials
    simp only [hfound, hdec]
  · intro c e hfound hdec
    unfold WebhookVerifier.get_user_credentials
    simp only [hfound, hdec]

/-- Witness for the amended C8 at a concrete corrupt credential row. -/
theorem c8_witness :
    CredentialManager.get_credentials cm0 [corruptCred] "u1" "razorpay" "test" = none ∧
    WebhookVerifier.get_user_credentials cm0 [corruptCred] "u1" "razorpay" = none :=
  ⟨(c8_fetch_swallows_decrypt_failure cm0 [corruptCred] "u1" "razorpay" "test").1
      corruptCred (.valueError CredentialManager.noKeyMsg) (by decide) (by decide),
   (c8_fetch_swallows_decrypt_failure cm0 [corruptCred] "u1" "razorpay" "test").2
      corruptCred (.valueError CredentialManager.noKeyMsg) (by decide) (by decide)⟩

/-! ### Cross-environment fallback on the explicit-environment path (C2) -/

/-- C2 counterexample: the API-key path passes an explicit target environment
(`"test"`), the user has a credential only in `"live"` — and `get_adapter`
still resolves, decrypts and uses the live credential.  Cross-environment
fallback does occur on the explicit-environment path. -/
theorem c2_counterexample :
    activeCreds [liveCred] "u1" "razorpay" (some "test") = [] ∧
    get_adapter cm0 [liveCred] [] [] "u1" "razorpay" (some "test") [] =
      .ok ({ provider := "razorpay", credentials := m0 }, [liveCred]) :=
  ⟨by decide, by decide⟩

/-- C2 (amended): an explicitly supplied target environment only determines
which environment is tried first: `get_adapter` hands it to
`_get_credentials_with_fallback`, so when no active credential exists in the
target environment and one exists in the opposite environment, that opposite
credential is decrypted and used — the fallback behaviour of the explicit
path is identical to the user-preference path. -/
theorem c2_explicit_env_still_falls_back (cm : CredentialManager)
    (db : List ServiceCredentialRec) (users : List UserRec)
    (penv : List (Bytes × Bytes)) (uid service target : String)
    (c : ServiceCredentialRec) (nonce : Bytes)
    (htarget : target = "test" ∨ target = "live")
    (h1 : scalarOneOrNone (activeCreds db uid service (some target)) = none)
    (h2 : scalarOneOrNone
      (activeCreds db uid service (some (otherEnvironment target))) = some c) :
    get_adapter cm db users penv uid service (some target) nonce =
      (match cm.decrypt_credentials c.encrypted_credential with
       | .error e => .error (.decryptFailed e)
       | .ok credentials =>
         if service == "razorpay" then
           .ok ({ provider := "razorpay", credentials := credentials }, db)
         else if service == "paypal" then
           .ok ({ provider := "paypal", credentials := credentials }, db)
         else .error (.unsupportedService ("Unsupported service: " ++ service))) := by
  have hchain : _get_credentials_with_fallback db uid service target = some c := by
    rcases htarget with ht | ht <;> subst ht
    · have h2' : scalarOneOrNone (activeCreds db uid service (some "live")) = some c := by
        simpa [otherEnvironment] using h2
      simp [_get_credentials_with_fallback, List.findSome?_cons, h1, h2']
    · have h2' : scalarOneOrNone (activeCreds db uid service (some "test")) = some c := by
        simpa [otherEnvironment] using h2
      simp [_get_credentials_with_fallback, List.findSome?_cons, h1, h2']
  simp only [get_adapter, hchain]

/-- Witness for the amended C2 at the concrete live-only credential table. -/
theorem c2_witness :
    get_adapter cm0 [liveCred] [] [] "u1" "razorpay" (some "test") [] =
      .ok ({ provider := "razorpay", credentials := m0 }, [liveCred]) :=
  (c2_explicit_env_still_falls_back cm0 [liveCred] [] [] "u1" "razorpay" "test"
      liveCred [] (Or.inl rfl) (by decide) (by decide)).trans (by decide)

/-! ### Idempotency-key reuse is not rejected (C1) -/

/-- C1, evaluated at the failing input: a durable record for
`(ak1, "k")` exists with a stored hash different from the new body, yet the
second call is answered with HTTP 200 and the first call's cached body — not
the claimed 422 `IdempotencyKeyReused` — because the cached-response lookup
returns before any hash validation; no second provider call is issued and the
state is untouched.  (Where the hash-validation path is reachable at all, its
`HTTPException(422)` is raised inside `try: … except Exception` at
`unified_api.py:191-199` and is swallowed.) -/
theorem c1_code_bug_eval :
    create_payment_order stC1 auth1 req1 "generated-key" []
        (.ok [("transaction_id", "txn_second")]) =
      ⟨.ok 200 rec1.response_body, stC1⟩ ∧
    (∀ d, (create_payment_order stC1 auth1 req1 "generated-key" []
        (.ok [("transaction_id", "txn_second")])).exit ≠ .httpError 422 d) ∧
    (create_payment_order stC1 auth1 req1 "generated-key" []
        (.ok [("transaction_id", "txn_second")])).state.providerCalls = [] := by
  have h : create_payment_order stC1 auth1 req1 "generated-key" []
      (.ok [("transaction_id", "txn_second")]) =
      ⟨.ok 200 rec1.response_body, stC1⟩ := by decide
  refine ⟨h, ?_, ?_⟩
  · intro d
    rw [h]
    simp
  · rw [h]
    rfl

/-! ### The idempotency lock leaks across the handler exit (C4) -/

/-- C4, evaluated at the failing input: with no cached record, the lock for
`"k4"` is acquired, then `json.dumps(request.dict(), sort_keys=True)` at
`unified_api.py:190` raises `TypeError` (the pydantic-validated `amount` is a
`Decimal`, which the standard-library JSON encoder rejects) — and because
line 190 lies between lock acquisition (line 182) and the `try`/`finally`
(lines 214/349), the handler terminates with the lock still held: the
release in the `finally` never runs on this exit branch. -/
theorem c4_code_bug_eval :
    create_payment_order stC4 auth1 req4 "generated-key" []
        (.ok [("transaction_id", "t")]) =
      ⟨.pyError "TypeError: Object of type Decimal is not JSON serializable",
       { stC4 with locks := ["k4"] }⟩ ∧
    (create_payment_order stC4 auth1 req4 "generated-key" []
        (.ok [("transaction_id", "t")])).state.locks = ["k4"] := by
  have h : create_payment_order stC4 auth1 req4 "generated-key" []
      (.ok [("transaction_id", "t")]) =
      ⟨.pyError "TypeError: Object of type Decimal is not JSON serializable",
       { stC4 with locks := ["k4"] }⟩ := by decide
  exact ⟨h, by rw [h]⟩

/-! ### PayPal webhook replay is not rejected (C3) -/

/-- C3, evaluated at the failing input: the same certificate-based delivery
(transmission id `TID1`, structurally valid and remotely verified signature
`SIG1`) is accepted twice.  The accept path stores `transmission_sig` in the
`webhook_events.signature` column (`webhooks.py:258`), while the replay check
matches that column against the transmission id
(`webhook_verifier.py:184`, whose own comment says the transmission id should
be stored there) — so the second delivery finds no matching row and passes.
The final conjunct shows the intended behaviour: had the first delivery
stored `TID1` in the signature column, the replay check would reject. -/
theorem c3_code_bug_eval :
    (ppDelivery stW).1 = .ok 200 [("status", "received")] ∧
    (ppDelivery stW).2.webhookEvents =
      [{ user_id := "u1", service_name := "paypal",
         event_type := "PAYMENT.CAPTURE.COMPLETED", signature := "SIG1",
         processed := true }] ∧
    (ppDelivery (ppDelivery stW).2).1 = .ok 200 [("status", "received")] ∧
    _check_paypal_replay_protection
      { stW with webhookEvents :=
          [{ user_id := "u1", service_name := "paypal",
             event_type := "PAYMENT.CAPTURE.COMPLETED", signature := "TID1",
             processed := true }] } "TID1" "900" = false :=
  ⟨by decide, by decide, by decide, by decide⟩

/-! ### Webhook failure responses are distinguishable on the PayPal endpoint (C9) -/

/-- C9 counterexample: two failing PayPal deliveries with different root
causes produce different external shapes — an unknown tenant yields
`404 "User credentials not found"` while a failed signature verification
yields `401 "Webhook signature verification failed"` — so an external caller
can distinguish the causes. -/
theorem c9_counterexample :
    (paypal_webhook stW [] (some "TID1") (some "900") (some "c") (some "a")
        (some "SIG1") (some { event_type := "E", custom_id := some "u2" }) true).1 =
      .httpError 404 "User credentials not found" ∧
    (paypal_webhook stW [] (some "TID1") (some "900") (some "c") (some "a")
        (some "SIG1") (some { event_type := "E", custom_id := some "u1" }) false).1 =
      .httpError 401 "Webhook signature verification failed" ∧
    (HandlerExit.httpError 404 "User credentials not found" ≠
      HandlerExit.httpError 401 "Webhook signature verification failed") :=
  ⟨by decide, by decide, by decide⟩

/-- C9 (amended): on the Razorpay endpoint the uniformity does hold — once
the delivery itself is well-formed (signature header present, JSON parsed,
tenant id embedded), every listed verification failure cause (unknown tenant
credentials, credentials that fail to fetch/decrypt, missing webhook secret,
wrong signature) produces the identical external shape
`400 "Invalid webhook request"`; the PayPal endpoint, by contrast,
distinguishes causes (404 / 400 / 401, see the counterexample). -/
theorem c9_razorpay_uniform_failures (st : WebState) (body : Bytes) (s : String)
    (ev : RazorpayEvent) (uid : String) (hs : ¬ s = "")
    (hev : ev.notes_user_id = some uid) :
    (scalarOneOrNone (activeCreds st.db uid "razorpay" none) = none →
      (razorpay_webhook st body (some s) (some ev)).1 =
        .httpError 400 "Invalid webhook request") ∧
    (WebhookVerifier.get_user_credentials st.cm st.db uid "razorpay" = none →
      (razorpay_webhook st body (some s) (some ev)).1 =
        .httpError 400 "Invalid webhook request") ∧
    (∀ creds, WebhookVerifier.get_user_credentials st.cm st.db uid "razorpay" = some creds →
      pyLookup creds (strBytes "RAZORPAY_WEBHOOK_SECRET") = none →
      (razorpay_webhook st body (some s) (some ev)).1 =
        .httpError 400 "Invalid webhook request") ∧
    (∀ creds secret, WebhookVerifier.get_user_credentials st.cm st.db uid "razorpay" = some creds →
      pyLookup creds (strBytes "RAZORPAY_WEBHOOK_SECRET") = some secret →
      secret ≠ [] → verify_razorpay_signature body s secret = false →
      (razorpay_webhook st body (some s) (some ev)).1 =
        .httpError 400 "Invalid webhook request") := by
  have hpres : hdrPresent (some s) = true := by simp [hdrPresent, hs]
  refine ⟨?_, ?_, ?_, ?_⟩
  · intro h1
    simp [razorpay_webhook, hpres, hev, h1]
  · intro h2
    cases hcred : scalarOneOrNone (activeCreds st.db uid "razorpay" none) with
    | none => simp [razorpay_webhook, hpres, hev, hcred]
    | some c => simp [razorpay_webhook, hpres, hev, hcred, h2]
  · intro creds h2 h3
    cases hcred : scalarOneOrNone (activeCreds st.db uid "razorpay" none) with
    | none => simp [razorpay_webhook, hpres, hev, hcred]
    | some c => simp [razorpay_webhook, hpres, hev, hcred, h2, h3]
  · intro creds secret h2 h3 h4 h5
    cases hcred : scalarOneOrNone (activeCreds st.db uid "razorpay" none) with
    | none => simp [razorpay_webhook, hpres, hev, hcred]
    | some c => simp [razorpay_webhook, hpres, hev, hcred, h2, h3, h4, h5]

/-- Witness for the amended C9: a Razorpay delivery for an unknown tenant
gets exactly `400 "Invalid webhook request"`. -/
theorem c9_witness :
    (razorpay_webhook { cm := cm0, db := [], webhookEvents := [], now := 0 } []
        (some "sig")
        (some { event := "payment.captured", notes_user_id := some "u9" })).1 =
      .httpError 400 "Invalid webhook request" :=
  (c9_razorpay_uniform_failures
      { cm := cm0, db := [], webhookEvents := [], now := 0 } [] "sig"
      { event := "payment.captured", notes_user_id := some "u9" } "u9"
      (by decide) rfl).1 (by decide)

end OneRouter
